import Mathlib

/-!
# Verification of the eml-and-msg-to-pdf converter

Shallow embedding of `src/app/email_processor.py` and `src/app/main.py`.

Modelling conventions:
* Python strings are Lean `String`s; raw file bytes are `List Nat`.
* Filesystem, network and the WeasyPrint / PyPDF2 / extract_msg libraries are
  external effects; their outcomes enter the model as explicit parameters
  (`Except` values and outcome oracles), while all control flow, string
  processing and list processing of the repository code is embedded directly.
* Python truthiness on optional strings (`if gdrive_file_id:`) is modelled by
  `truthyOpt` (present and non-empty).
-/

namespace EmailPdf

/-- `s[:n]` on a Python string. -/
def strTake (s : String) (n : Nat) : String :=
  String.mk (s.toList.take n)

/-- Membership of `needle` as a contiguous substring of `hay`
(Python `needle in hay`). -/
def isInfixL (needle : List Char) : List Char → Bool
  | [] => needle.isEmpty
  | c :: t => needle.isPrefixOf (c :: t) || isInfixL needle t

/-- Python truthiness of an optional string: `None` and `''` are falsy. -/
def truthyOpt : Option String → Bool
  | none => false
  | some s => s != ""

/-- `os.path.basename`: the part of the path after the last slash. -/
def basename (p : String) : String :=
  String.mk ((p.toList.reverse.takeWhile (fun c => c ≠ '/')).reverse)

/-- Scanner for `os.path.splitext`: the extension is the suffix starting at the
last dot that is preceded (anywhere earlier in the name) by a non-dot
character; leading dots never start an extension. `seen` records whether a
non-dot character has been passed. -/
def extScan (seen : Bool) : List Char → Option (List Char)
  | [] => none
  | c :: rest =>
    if c = '.' then
      match extScan seen rest with
      | some e => some e
      | none => if seen then some (c :: rest) else none
    else
      extScan true rest

/-- `os.path.splitext(name)[1]`. -/
def splitext_ext (name : String) : String :=
  match extScan false name.toList with
  | some e => String.mk e
  | none => ""

/-- `f'{idx:02d}'` for the attachment pdf file names. -/
def pad2 (n : Nat) : String :=
  if n < 10 then "0" ++ toString n else toString n

/-- ASCII bytes of a literal (used for the byte-prefix sniffs of `main.py`). -/
def asciiBytes (s : String) : List Nat :=
  s.toList.map Char.toNat

/-- Python `s.lower()`, character by character.  `Char.toLower` lowers the
ASCII range and leaves other code points unchanged; `str.lower()` agrees with
this on ASCII (which covers every extension the classifier compares and the
ASCII filenames of the examples below) but additionally lowercases non-ASCII
uppercase letters, which this model does not attempt to table. -/
def pyLower (s : String) : String :=
  String.mk (s.toList.map Char.toLower)

/-- Python string `<=`: lexicographic comparison by code point. -/
def listLE : List Char → List Char → Bool
  | [], _ => true
  | _ :: _, [] => false
  | a :: as, b :: bs => if a = b then listLE as bs else decide (a < b)

/-! ## Data model (email_processor.py) -/

/-- One entry of `email_data['attachments']`. -/
structure Attachment where
  filename : String
  path : String
  content_type : String
  size : Nat
  deriving Repr, DecidableEq

/-- The `email_data` dictionary produced by both parsers.
The Python keys `'from'` and `'to'` are Lean keywords, hence the field names
`fromAddr` and `toAddr`. -/
structure EmailData where
  fromAddr : String
  toAddr : String
  cc : String
  subject : String
  date : String
  body_text : String
  body_html : String
  attachments : List Attachment
  deriving Repr, DecidableEq

/-! ## HTML renderer (`create_gmail_html`) -/

/-- Python `s.replace(old, new)` for a one-character `old`: every occurrence
of the character `c` is replaced by `r`. -/
def pyReplace (c : Char) (r : List Char) : List Char → List Char
  | [] => []
  | d :: rest => (if d = c then r else [d]) ++ pyReplace c r rest

/-- The chain of the three `.replace` calls of `create_gmail_html`, in source
order: `&` first, then `<`, then `>`. -/
def py3 (l : List Char) : List Char :=
  pyReplace '>' ("&gt;".toList)
    (pyReplace '<' ("&lt;".toList)
      (pyReplace '&' ("&amp;".toList) l))

/-- `body_content.replace('&','&amp;').replace('<','&lt;').replace('>','&gt;')`. -/
def escape_body (s : String) : String :=
  String.mk (py3 s.toList)

/-- Specification-side escaping: one simultaneous pass replacing exactly the
three characters `&`, `<`, `>` and nothing else (the spec wording). -/
def escapeSpecL : List Char → List Char
  | [] => []
  | c :: rest =>
    (if c = '&' then "&amp;".toList
     else if c = '<' then "&lt;".toList
     else if c = '>' then "&gt;".toList
     else [c]) ++ escapeSpecL rest

/-- Scan for the `>` terminating a lazy `[^<]+?` match: the terminator is the
first `>` at this point or later; a `<` encountered first kills the match
(the chars consumed by `[^<]+?` may not be `<`, but may be `>`).  Returns the
rest of the input after the terminating `>`, with a length certificate for
termination. -/
def tagEnd : (l : List Char) → Option { r : List Char // r.length < l.length }
  | [] => none
  | c :: rest =>
    if c = '>' then some ⟨rest, Nat.lt_succ_self _⟩
    else if c = '<' then none
    else
      match tagEnd rest with
      | some ⟨r, h⟩ => some ⟨r, Nat.lt_succ_of_lt h⟩
      | none => none

/-- A match of the regex `<[^<]+?>` starting right after a `<`: the lazy
class `[^<]+?` first consumes one character that is not `<` (it may be `>`,
so `<>>` and `<>a>` are matches), then the match ends at the next `>`. -/
def tagMatch : (l : List Char) → Option { r : List Char // r.length < l.length }
  | [] => none
  | c :: rest =>
    if c = '<' then none
    else
      match tagEnd rest with
      | some ⟨r, h⟩ => some ⟨r, Nat.lt_succ_of_lt h⟩
      | none => none

/-- `re.sub('<[^<]+?>', '', s)`: delete every non-overlapping match of the
non-greedy tag pattern, scanning left to right. -/
def stripTags : List Char → List Char
  | [] => []
  | c :: rest =>
    if c = '<' then
      match tagMatch rest with
      | some r2 => stripTags r2.1
      | none => c :: stripTags rest
    else c :: stripTags rest
termination_by l => l.length
decreasing_by
  · exact Nat.lt_succ_of_lt r2.2
  · exact Nat.lt_succ_self _
  · exact Nat.lt_succ_self _

/-- The `body_content` computation of `create_gmail_html`: prefer
`body_text`; if it is falsy and `body_html` is truthy, strip tags from the
HTML body; default to `'No content'` when still falsy; then escape `&`, `<`,
`>` in source order. -/
def gmailBodyContent (e : EmailData) : String :=
  let body0 := e.body_text
  let body1 :=
    if body0 = "" ∧ e.body_html ≠ "" then String.mk (stripTags e.body_html.toList)
    else body0
  let body2 := if body1 = "" then "No content" else body1
  escape_body body2

/-- The module-level `GMAIL_STYLE` constant (braces written as `\x7b`/`\x7d`). -/
def GMAIL_STYLE : String :=
  "\n<style>\n    body \x7b\n        font-family: Arial, sans-serif;\n        margin: 0;\n        padding: 20px;\n        background-color: #f5f5f5;\n    \x7d\n    .email-container \x7b\n        max-width: 800px;\n        margin: 0 auto;\n        background-color: white;\n        box-shadow: 0 1px 3px rgba(0,0,0,0.12), 0 1px 2px rgba(0,0,0,0.24);\n        border-radius: 2px;\n    \x7d\n    .email-header \x7b\n        padding: 20px 24px;\n        border-bottom: 1px solid #e0e0e0;\n    \x7d\n    .email-subject \x7b\n        font-size: 20px;\n        font-weight: 400;\n        color: #202124;\n        margin: 0 0 16px 0;\n    \x7d\n    .email-meta \x7b\n        font-size: 12px;\n        color: #5f6368;\n    \x7d\n    .email-meta-row \x7b\n        margin: 4px 0;\n        display: flex;\n    \x7d\n    .email-meta-label \x7b\n        font-weight: 500;\n        min-width: 60px;\n        color: #202124;\n    \x7d\n    .email-meta-value \x7b\n        color: #5f6368;\n        word-break: break-word;\n    \x7d\n    .email-body \x7b\n        padding: 24px;\n        font-size: 14px;\n        line-height: 1.6;\n        color: #202124;\n        white-space: pre-wrap;\n        word-wrap: break-word;\n    \x7d\n    .email-attachments \x7b\n        padding: 16px 24px;\n        border-top: 1px solid #e0e0e0;\n        background-color: #f8f9fa;\n    \x7d\n    .attachments-title \x7b\n        font-size: 13px;\n        font-weight: 500;\n        color: #5f6368;\n        margin-bottom: 12px;\n    \x7d\n    .attachment-item \x7b\n        display: inline-block;\n        padding: 8px 12px;\n        margin: 4px 8px 4px 0;\n        background-color: white;\n        border: 1px solid #dadce0;\n        border-radius: 4px;\n        font-size: 13px;\n        color: #202124;\n    \x7d\n    .attachment-icon \x7b\n        display: inline-block;\n        width: 16px;\n        height: 16px;\n        margin-right: 8px;\n        vertical-align: middle;\n    \x7d\n    .gmail-logo \x7b\n        color: #ea4335;\n        font-size: 11px;\n        text-align: right;\n        padding: 8px 24px;\n        color: #5f6368;\n    \x7d\n</style>\n"

/-- `f'{att_size/1024:.1f}'`: kibibytes to one decimal place.  `size / 1024`
is exactly representable as a double (`1024` is a power of two, `size` a file
size far below `2^53`), and formatting an exact binary value with `.1f`
rounds the exact value to the nearest tenth with ties to even — here computed
on `size * 10 / 1024` in exact integer arithmetic. -/
def format_kb (size : Nat) : String :=
  let q := size * 10
  let n := q / 1024
  let r := q % 1024
  let tenths :=
    if 2 * r < 1024 then n
    else if 2 * r > 1024 then n + 1
    else if n % 2 = 0 then n else n + 1
  toString (tenths / 10) ++ "." ++ toString (tenths % 10)

/-- One attachment chip of the attachments section, as a function of the
filename and size (the only attachment fields the renderer reads).  The
appends are grouped to the right so that each interpolated value heads its
own subterm. -/
def chip_of (filename : String) (size : Nat) : String :=
  "<div class=\"attachment-item\">📎 "
    ++ (filename ++ (" (" ++ (format_kb size ++ " KB)</div>")))

/-- `f'<div class="attachment-item">📎 {att["filename"]} ({size_kb:.1f} KB)</div>'` -/
def attachment_chip (a : Attachment) : String :=
  chip_of a.filename a.size

/-- The `attachments_html` section: empty when the attachment list is falsy. -/
def attachments_html (atts : List Attachment) : String :=
  if atts.isEmpty then ""
  else
    "<div class=\"email-attachments\">"
      ++ ("<div class=\"attachments-title\">Attachments</div>"
      ++ (String.join (atts.map attachment_chip) ++ "</div>"))

/-- The conditional Cc row of the meta block. -/
def cc_row (cc : String) : String :=
  if cc ≠ "" then
    "<div class=\"email-meta-row\"><span class=\"email-meta-label\">Cc:</span><span class=\"email-meta-value\">"
      ++ (cc ++ "</span></div>")
  else ""

/-- `create_gmail_html`: the full f-string template, with each interpolation
spliced verbatim except the body (which goes through `gmailBodyContent`).
The appends are grouped to the right so that each interpolated value heads
its own subterm. -/
def create_gmail_html (e : EmailData) : String :=
  "\n<!DOCTYPE html>\n<html>\n<head>\n    <meta charset=\"UTF-8\">\n    "
  ++ (GMAIL_STYLE
  ++ ("\n</head>\n<body>\n    <div class=\"email-container\">\n        <div class=\"email-header\">\n            <div class=\"email-subject\">"
  ++ (e.subject
  ++ ("</div>\n            <div class=\"email-meta\">\n                <div class=\"email-meta-row\">\n                    <span class=\"email-meta-label\">From:</span>\n                    <span class=\"email-meta-value\">"
  ++ (e.fromAddr
  ++ ("</span>\n                </div>\n                <div class=\"email-meta-row\">\n                    <span class=\"email-meta-label\">To:</span>\n                    <span class=\"email-meta-value\">"
  ++ (e.toAddr
  ++ ("</span>\n                </div>\n                "
  ++ (cc_row e.cc
  ++ ("\n                <div class=\"email-meta-row\">\n                    <span class=\"email-meta-label\">Date:</span>\n                    <span class=\"email-meta-value\">"
  ++ (e.date
  ++ ("</span>\n                </div>\n            </div>\n        </div>\n        <div class=\"email-body\">"
  ++ (gmailBodyContent e
  ++ ("</div>\n        "
  ++ (attachments_html e.attachments
  ++ "\n        <div class=\"gmail-logo\">Generated from email file</div>\n    </div>\n</body>\n</html>\n")))))))))))))))

/-- The result dictionary returned by `process_email_to_pdf`. -/
structure ProcResult where
  success : Bool
  output_path : String
  email_subject : String
  email_from : String
  attachment_count : Nat
  total_pages : Nat
  deriving Repr, DecidableEq

/-! ## Format parser (`parse_eml_file`) -/

/-- One part yielded by `msg.walk()` in `parse_eml_file`.  The fields model
what the email library hands back for the part: its content type, the
stringified Content-Disposition header, `get_filename()`, the `get_content()`
outcome (`none` models the call raising, which the source swallows), whether
writing the decoded payload to the temp file succeeds, and the temp path and
byte size the extraction would produce. -/
structure EmlPart where
  content_type : String
  disposition : String
  filename : Option String
  content : Option String
  extract_ok : Bool
  path : String
  size : Nat
  deriving Repr, DecidableEq

/-- The parsed top-level message as seen by `parse_eml_file`: the five
stringified headers, whether `msg.is_multipart()`, the walked parts, and the
`get_content()` outcome used on the non-multipart branch. -/
structure EmlMessage where
  fromH : String
  toH : String
  ccH : String
  subjectH : String
  dateH : String
  multipart : Bool
  parts : List EmlPart
  top_content : Option String
  deriving Repr, DecidableEq

/-- The classification test of the part loop:
`"attachment" in disposition or part.get_filename()`. -/
def isAttachmentPart (p : EmlPart) : Bool :=
  isInfixL ("attachment".toList) p.disposition.toList || truthyOpt p.filename

/-- One iteration of the `msg.walk()` loop.  The attachment branch appends a
record only when the filename is truthy and the payload write succeeds (a
failed write is logged and the part dropped); the body branches fire only
while the corresponding captured body is still falsy, and a raising
`get_content()` (modelled by `content = none`) leaves the body unchanged. -/
def walk_step (acc : EmailData) (p : EmlPart) : EmailData :=
  if isAttachmentPart p then
    match p.filename with
    | some fn =>
      if fn ≠ "" ∧ p.extract_ok then
        { acc with attachments :=
            acc.attachments ++ [⟨fn, p.path, p.content_type, p.size⟩] }
      else acc
    | none => acc
  else if p.content_type = "text/plain" ∧ acc.body_text = "" then
    { acc with body_text := p.content.getD acc.body_text }
  else if p.content_type = "text/html" ∧ acc.body_html = "" then
    { acc with body_html := p.content.getD acc.body_html }
  else acc

/-- `parse_eml_file`, as a function of the parsed message structure. -/
def parse_eml_file (m : EmlMessage) : EmailData :=
  let init : EmailData :=
    { fromAddr := m.fromH, toAddr := m.toH, cc := m.ccH, subject := m.subjectH,
      date := m.dateH, body_text := "", body_html := "", attachments := [] }
  if m.multipart then m.parts.foldl walk_step init
  else { init with body_text := m.top_content.getD "" }

/-! ## Attachment classifier (`convert_attachment_to_pdf`) -/

/-- Whether the work inside the `try` block of `convert_attachment_to_pdf`
raises (parse error of a nested message, unreadable file, rendering engine
failure, failing copy, ...), and with what message. -/
inductive AttOutcome where
  | normal
  | raises (msg : String)
  deriving Repr, DecidableEq

/-- What `convert_attachment_to_pdf` wrote to its output path. -/
inductive PdfFile where
  | nestedEmailPdf (src : String)
  | copiedPdf (src : String)
  | textPdf (html : String)
  | imagePdf (html : String)
  | unsupportedPdf (html : String)
  | errorPlaceholder (html : String)
  deriving Repr, DecidableEq

/-- The text-attachment template (`.txt`, `.log`, `.csv`), wrapping the first
10,000 characters of the file in a monospace `<pre>` block. -/
def text_attachment_html (filename content : String) : String :=
  "\n<!DOCTYPE html>\n<html>\n<head>\n    <meta charset=\"UTF-8\">\n    <style>\n        body \x7b font-family: monospace; padding: 20px; font-size: 10px; white-space: pre-wrap; \x7d\n        h1 \x7b font-size: 14px; margin-bottom: 20px; \x7d\n    </style>\n</head>\n<body>\n    <h1>"
  ++ filename ++ "</h1>\n    <pre>" ++ strTake content 10000
  ++ "</pre>\n</body>\n</html>\n"

/-- The image-attachment template, referencing the file by path. -/
def image_attachment_html (filename path : String) : String :=
  "\n<!DOCTYPE html>\n<html>\n<head>\n    <meta charset=\"UTF-8\">\n    <style>\n        body \x7b margin: 0; padding: 20px; text-align: center; \x7d\n        h1 \x7b font-size: 14px; margin-bottom: 20px; \x7d\n        img \x7b max-width: 100%; height: auto; \x7d\n    </style>\n</head>\n<body>\n    <h1>"
  ++ filename ++ "</h1>\n    <img src=\"file://" ++ path
  ++ "\" />\n</body>\n</html>\n"

/-- The placeholder for a file type that cannot be converted, naming the
extension. -/
def unsupported_html (filename ext : String) : String :=
  "\n<!DOCTYPE html>\n<html>\n<head>\n    <meta charset=\"UTF-8\">\n    <style>\n        body \x7b font-family: Arial; padding: 40px; text-align: center; \x7d\n        h1 \x7b color: #666; \x7d\n        p \x7b color: #999; \x7d\n    </style>\n</head>\n<body>\n    <h1>📄 " ++ filename ++ "</h1>\n    <p>File type: " ++ ext
  ++ "</p>\n    <p>This file type cannot be converted to PDF automatically.</p>\n</body>\n</html>\n"

/-- The error placeholder of the `except` branch, showing
`str(e)[:200]`. -/
def error_placeholder_html (filename msg : String) : String :=
  "\n<!DOCTYPE html>\n<html>\n<head>\n    <meta charset=\"UTF-8\">\n    <style>\n        body \x7b font-family: Arial; padding: 40px; text-align: center; \x7d\n        h1 \x7b color: #d32f2f; \x7d\n        p \x7b color: #666; \x7d\n    </style>\n</head>\n<body>\n    <h1>⚠️ " ++ filename ++ "</h1>\n    <p>Error converting file: " ++ strTake msg 200
  ++ "</p>\n</body>\n</html>\n"

/-- `convert_attachment_to_pdf(attachment_path, output_pdf_path)`.
`fileContent` is what reading the attachment file yields (used by the text
branch); `outcome` says whether the work of the `try` block raises.  Returns
the Python return value (`True` on every normal branch, `False` from the
`except` branch) together with what was written to the output path.  The
recursive parse+render of a nested `.eml`/`.msg` attachment is summarised by
`nestedEmailPdf` (no claim depends on its page content). -/
def convert_attachment_to_pdf (attachment_path : String) (fileContent : String)
    (outcome : AttOutcome) : Bool × PdfFile :=
  let filename := basename attachment_path
  let ext := pyLower (splitext_ext filename)
  match outcome with
  | .raises msg => (false, .errorPlaceholder (error_placeholder_html filename msg))
  | .normal =>
    if ext = ".eml" ∨ ext = ".msg" then (true, .nestedEmailPdf attachment_path)
    else if ext = ".pdf" then (true, .copiedPdf attachment_path)
    else if ext = ".txt" ∨ ext = ".log" ∨ ext = ".csv" then
      (true, .textPdf (text_attachment_html filename fileContent))
    else if [".png", ".jpg", ".jpeg", ".gif", ".bmp"].contains ext then
      (true, .imagePdf (image_attachment_html filename attachment_path))
    else (true, .unsupportedPdf (unsupported_html filename ext))

/-! ## Merger and orchestrator (`merge_pdfs`, `process_email_to_pdf`) -/

/-- `merge_pdfs`: append, in order, exactly the listed paths that exist on
disk (`on_disk` is the filesystem oracle); a missing path is skipped without
error.  Returns the ordered sources of the merged document. -/
def merge_pdfs (pdf_list : List String) (on_disk : String → Bool) : List String :=
  pdf_list.filter on_disk

/-- Case-insensitive filename order: the key comparison of
`sorted(..., key=lambda x: x['filename'].lower())`. -/
def attLE (a b : Attachment) : Prop :=
  listLE (pyLower a.filename).toList (pyLower b.filename).toList = true

instance : DecidableRel attLE := fun _ _ =>
  inferInstanceAs (Decidable (_ = true))

instance : IsTotal Attachment attLE := by
  constructor
  intro a b
  unfold attLE
  generalize (pyLower a.filename).toList = x
  generalize (pyLower b.filename).toList = y
  induction x generalizing y with
  | nil => left; rfl
  | cons c cs ih =>
    cases y with
    | nil => right; rfl
    | cons d ds =>
      by_cases hcd : c = d
      · subst hcd
        rcases ih ds with h | h
        · left; simp [listLE, h]
        · right; simp [listLE, h]
      · rcases lt_or_gt_of_ne hcd with h | h
        · left; simp [listLE, hcd, h]
        · right; simp [listLE, Ne.symm hcd, gt_iff_lt] at h ⊢; simp [h]

instance : IsTrans Attachment attLE := by
  constructor
  intro a b c
  unfold attLE
  generalize (pyLower a.filename).toList = x
  generalize (pyLower b.filename).toList = y
  generalize (pyLower c.filename).toList = z
  induction x generalizing y z with
  | nil => intro _ _; rfl
  | cons cx cxs ih =>
    intro hab hbc
    cases y with
    | nil => simp [listLE] at hab
    | cons dy dys =>
      cases z with
      | nil => simp [listLE] at hbc
      | cons ez ezs =>
        by_cases h1 : cx = dy
        · subst h1
          by_cases h2 : cx = ez
          · subst h2
            simp only [listLE, if_pos rfl] at hab hbc ⊢
            exact ih dys ezs hab hbc
          · simp only [listLE, if_pos rfl] at hab
            simp [listLE, h2] at hbc ⊢
            exact hbc
        · by_cases h2 : dy = ez
          · subst h2
            simp [listLE, h1] at hab ⊢
            exact hab
          · simp [listLE, h1] at hab
            simp [listLE, h2] at hbc
            have h3 : cx < ez := lt_trans hab hbc
            simp [listLE, ne_of_lt h3]
            exact h3

/-- `f'{idx:02d}_{att["filename"]}.pdf'` joined onto the temp directory. -/
def att_pdf_path (temp_dir : String) (idx : Nat) (a : Attachment) : String :=
  temp_dir ++ "/" ++ pad2 idx ++ "_" ++ a.filename ++ ".pdf"

/-- The `for idx, att in enumerate(sorted_attachments, 1):` loop.  Returns the
paths appended to `pdf_list` (only those whose conversion returned `True`)
and everything written to disk (every iteration writes its output file,
including the `except` branch). -/
def convert_loop (temp_dir : String) (attContent : Attachment → String)
    (attOutcome : Attachment → AttOutcome) :
    Nat → List Attachment → List String × List (String × PdfFile)
  | _, [] => ([], [])
  | idx, a :: rest =>
    let path := att_pdf_path temp_dir idx a
    let cf := convert_attachment_to_pdf a.path (attContent a) (attOutcome a)
    let pr := convert_loop temp_dir attContent attOutcome (idx + 1) rest
    (if cf.1 then path :: pr.1 else pr.1, (path, cf.2) :: pr.2)

/-- Steps 2–3 of `process_email_to_pdf`: the email page pdf path followed by
the per-attachment conversions over the case-insensitively sorted attachment
list (Python `sorted` is a stable sort, as is `List.insertionSort` with a
`≤`-shaped relation, so the two agree).  Returns the `pdf_list` handed to the
merger and the written attachment pdfs. -/
def build_pdf_list (temp_dir : String) (attContent : Attachment → String)
    (attOutcome : Attachment → AttOutcome) (d : EmailData) :
    List String × List (String × PdfFile) :=
  let email_pdf := temp_dir ++ "/00_email.pdf"
  let pr :=
    if d.attachments.isEmpty then (([] : List String), ([] : List (String × PdfFile)))
    else convert_loop temp_dir attContent attOutcome 1
      (List.insertionSort attLE d.attachments)
  (email_pdf :: pr.1, pr.2)

/-- The compound-document magic number `b'\xD0\xCF\x11\xE0'`. -/
def magicBytes : List Nat := [0xD0, 0xCF, 0x11, 0xE0]

/-- The content sniff for an extensionless input: read the first 10 bytes and
test `header.startswith(b'\xD0\xCF\x11\xE0')`. -/
def detect_extension (fileBytes : List Nat) : String :=
  if magicBytes.isPrefixOf (fileBytes.take 10) then ".msg" else ".eml"

/-- Which parser `process_email_to_pdf` dispatches to. -/
inductive ParsePathKind where
  | emlPath
  | msgPath
  deriving Repr, DecidableEq

/-- Step 1 of `process_email_to_pdf`: resolve the extension (content sniff
when there is none) and pick the parser, raising `ValueError` otherwise. -/
def parser_choice (ext0 : String) (fileBytes : List Nat) :
    Except String ParsePathKind :=
  let ext := if ext0 = "" then detect_extension fileBytes else ext0
  if ext = ".eml" then .ok .emlPath
  else if ext = ".msg" then .ok .msgPath
  else .error ("Unsupported file type: " ++ ext)

/-- Everything observable about one `process_email_to_pdf` run: the returned
dictionary, the `pdf_list` handed to `merge_pdfs`, the attachment pdfs
written to the temp directory, and the ordered sources of the merged
output. -/
structure ProcTrace where
  result : ProcResult
  pdf_list : List String
  written : List (String × PdfFile)
  merged : List String
  deriving Repr, DecidableEq

/-- `process_email_to_pdf(email_file_path, output_pdf_path)`.
`ext0` is `os.path.splitext(email_file_path)[1].lower()`; `fileBytes` the
raw input file; `emlParse`/`msgParse` the outcome of the respective parser
(`Except.error` models the parser raising); `emailRender` the outcome of
rendering the email page with WeasyPrint (a raising render aborts the whole
job); `on_disk` the filesystem oracle seen by `merge_pdfs`.  An `Except.error`
result models the exception propagating out of the function. -/
def process_email_to_pdf (ext0 : String) (fileBytes : List Nat)
    (emlParse msgParse : Except String EmailData)
    (emailRender : Except String Unit)
    (temp_dir out_path : String)
    (attContent : Attachment → String) (attOutcome : Attachment → AttOutcome)
    (on_disk : String → Bool) : Except String ProcTrace :=
  match parser_choice ext0 fileBytes with
  | .error e => .error e
  | .ok pk =>
    match (match pk with
           | ParsePathKind.emlPath => emlParse
           | ParsePathKind.msgPath => msgParse) with
    | .error e => .error e
    | .ok d =>
      match emailRender with
      | .error e => .error e
      | .ok _ =>
        let bp := build_pdf_list temp_dir attContent attOutcome d
        let merged := merge_pdfs bp.1 on_disk
        .ok { result :=
                { success := true, output_path := out_path,
                  email_subject := d.subject, email_from := d.fromAddr,
                  attachment_count := d.attachments.length,
                  total_pages := bp.1.length },
              pdf_list := bp.1, written := bp.2, merged := merged }

/-! ## Transport layer (`main.py`) -/

/-- The decoded JSON body of a conversion request. `hasJson := false` models
`request.get_json()` returning nothing. -/
structure ConvertRequest where
  hasJson : Bool
  fileUrl : Option String
  googleDriveFileId : Option String
  deriving Repr, DecidableEq

/-- The observable response of a handler. -/
inductive HandlerResponse where
  | errorJson (msg : String) (status : Nat)
  | resultError500 (r : ProcResult)
  | exceptionError500 (msg : String)
  | successJson (r : ProcResult)
  | pdfDownload (download_name : String)
  deriving Repr, DecidableEq

/-- The URL actually fetched: a provided Google Drive file id wins and is
spliced into the direct-download form. -/
def resolve_url (fileUrl gdrive : Option String) : String :=
  if truthyOpt gdrive then
    "https://drive.google.com/uc?export=download&id=" ++ gdrive.getD ""
  else fileUrl.getD ""

/-- The HTML sniff of `/convert`: the first 100 downloaded bytes start with
`b'<!DOCTYPE html>'` or `b'<html'`. -/
def html_sniff (payload : List Nat) : Bool :=
  (asciiBytes "<!DOCTYPE html>").isPrefixOf (payload.take 100)
    || (asciiBytes "<html").isPrefixOf (payload.take 100)

/-- The error message of the HTML-page rejection. -/
def htmlRejectMsg : String :=
  "Received HTML page instead of email file. Please ensure the file is publicly accessible and the URL is a direct download link."

/-- `POST /convert` (`convert_email_to_pdf` in `main.py`).  `status` and
`payload` are the outcome of `requests.get` on the resolved URL; the
remaining parameters feed the conversion pipeline.  The downloaded temp file
`email_<hex>` never has an extension, so the pipeline always content-sniffs
(`ext0 = ""`).  The second component records whether `process_email_to_pdf`
was invoked. -/
def convert_handler (req : ConvertRequest) (status : Nat) (payload : List Nat)
    (emlParse msgParse : Except String EmailData)
    (emailRender : Except String Unit) (temp_dir out_path : String)
    (attContent : Attachment → String) (attOutcome : Attachment → AttOutcome)
    (on_disk : String → Bool) : HandlerResponse × Bool :=
  if ¬req.hasJson then (.errorJson "No JSON data provided" 400, false)
  else if ¬truthyOpt req.fileUrl ∧ ¬truthyOpt req.googleDriveFileId then
    (.errorJson "Either fileUrl or googleDriveFileId must be provided" 400, false)
  else if status ≠ 200 then
    (.errorJson ("Failed to download file: HTTP " ++ toString status) 400, false)
  else if html_sniff payload then (.errorJson htmlRejectMsg 400, false)
  else
    match process_email_to_pdf "" payload emlParse msgParse emailRender
        temp_dir out_path attContent attOutcome on_disk with
    | .error e => (.exceptionError500 e, true)
    | .ok t =>
      if t.result.success then (.successJson t.result, true)
      else (.resultError500 t.result, true)

/-- `POST /convert/download` (`convert_and_download` in `main.py`): same
contract, but with no HTML sniff between download and conversion, and a file
response on success. -/
def download_handler (req : ConvertRequest) (status : Nat) (payload : List Nat)
    (emlParse msgParse : Except String EmailData)
    (emailRender : Except String Unit) (temp_dir out_path : String)
    (attContent : Attachment → String) (attOutcome : Attachment → AttOutcome)
    (on_disk : String → Bool) : HandlerResponse × Bool :=
  if ¬req.hasJson then (.errorJson "No JSON data provided" 400, false)
  else if ¬truthyOpt req.fileUrl ∧ ¬truthyOpt req.googleDriveFileId then
    (.errorJson "Either fileUrl or googleDriveFileId must be provided" 400, false)
  else if status ≠ 200 then
    (.errorJson ("Failed to download file: HTTP " ++ toString status) 400, false)
  else
    match process_email_to_pdf "" payload emlParse msgParse emailRender
        temp_dir out_path attContent attOutcome on_disk with
    | .error e => (.exceptionError500 e, true)
    | .ok t =>
      if t.result.success then (.pdfDownload "email_printout.pdf", true)
      else (.resultError500 t.result, true)

/-- `true` exactly on the `return jsonify(result), 500` branch taken when the
orchestrator reports `success: False`. -/
def is_result_error500 : HandlerResponse → Bool
  | .resultError500 _ => true
  | _ => false

/-! ## Specification-side definitions

These follow the wording of the claims (not the source); the theorems below
relate them to the source-side definitions above. -/

/-- Claim wording (C5): the content of the first part of the given content
type that is not classified as an attachment — regardless of whether that
content is empty. -/
def firstPartContent (ct : String) (parts : List EmlPart) : String :=
  match parts.find? (fun p => !isAttachmentPart p && p.content_type == ct) with
  | some p => p.content.getD ""
  | none => ""

/-- Amended wording (C5): the first successfully extracted non-empty content
among the non-attachment parts of the given content type. -/
def firstNonEmptyContent (ct : String) : List EmlPart → String
  | [] => ""
  | p :: rest =>
    if isAttachmentPart p = false ∧ p.content_type = ct ∧ p.content.getD "" ≠ "" then
      p.content.getD ""
    else firstNonEmptyContent ct rest

/-- The attachment records the walk extracts: the parts classified as
attachments that carry a truthy filename and whose payload write succeeds,
in walk order. -/
def extractedAttachments (parts : List EmlPart) : List Attachment :=
  parts.filterMap fun p =>
    if isAttachmentPart p then
      match p.filename with
      | some fn =>
        if fn ≠ "" ∧ p.extract_ok then some ⟨fn, p.path, p.content_type, p.size⟩
        else none
      | none => none
    else none

/-- Claim wording (C6): the body source — the plain-text body, or, when that
is empty, the HTML body with every match of the non-greedy tag pattern
deleted. -/
def claim_body_source (e : EmailData) : String :=
  if e.body_text = "" then String.mk (stripTags e.body_html.toList)
  else e.body_text

/-- `needle` occurs verbatim (contiguously) inside `hay`. -/
def occursIn (needle hay : String) : Prop :=
  ∃ p q : List Char, hay.data = p ++ needle.data ++ q

/-- A parsed email with no attachments. -/
def exDataNoAtt : EmailData :=
  { fromAddr := "alice@example.com", toAddr := "bob@example.com", cc := "",
    subject := "Hello", date := "Mon, 1 Jan 2024 10:00:00 +0000",
    body_text := "hi", body_html := "", attachments := [] }

/-- A text attachment extracted to a temp path. -/
def exAttTxt : Attachment :=
  { filename := "a.txt", path := "/tmp/att/a.txt", content_type := "text/plain", size := 3 }

/-- A parsed email with one text attachment. -/
def exDataOneAtt : EmailData := { exDataNoAtt with attachments := [exAttTxt] }

/-- A multipart message with two text/plain parts: the first yields empty
content, the second yields `"second"`. -/
def exMsgTwoPlain : EmlMessage :=
  { fromH := "a@x", toH := "b@x", ccH := "", subjectH := "s", dateH := "d",
    multipart := true,
    parts :=
      [ { content_type := "text/plain", disposition := "", filename := none,
          content := some "", extract_ok := true, path := "", size := 0 },
        { content_type := "text/plain", disposition := "", filename := none,
          content := some "second", extract_ok := true, path := "", size := 0 } ],
    top_content := none }

/-- A parsed email whose bodies are both empty. -/
def exDataEmptyBodies : EmailData :=
  { fromAddr := "", toAddr := "", cc := "", subject := "", date := "",
    body_text := "", body_html := "", attachments := [] }

/-- Two parsed emails identical except for the temp path of their attachment. -/
def exDataPathA : EmailData :=
  { fromAddr := "f@x", toAddr := "t@x", cc := "c@x", subject := "s", date := "d",
    body_text := "body", body_html := "",
    attachments := [ { filename := "x.txt", path := "/tmp/run1/x.txt",
                       content_type := "text/plain", size := 5 } ] }

/-- See `exDataPathA`: same record with a different attachment temp path. -/
def exDataPathB : EmailData :=
  { fromAddr := "f@x", toAddr := "t@x", cc := "c@x", subject := "s", date := "d",
    body_text := "body", body_html := "",
    attachments := [ { filename := "x.txt", path := "/tmp/run2/x.txt",
                       content_type := "text/plain", size := 5 } ] }

/-- An attachment whose filename contains HTML markup. -/
def exMarkupAtt : Attachment :=
  { filename := "<img src=x>.txt", path := "/tmp/att/z.txt",
    content_type := "text/plain", size := 1 }

/-- A parsed email with HTML markup in its subject, a non-empty Cc header,
and a markup-bearing attachment filename. -/
def exDataMarkup : EmailData :=
  { fromAddr := "<b>f</b>@x", toAddr := "t@x", cc := "cc@example.com",
    subject := "<script>alert(1)</script>", date := "d",
    body_text := "body", body_html := "", attachments := [exMarkupAtt] }

/-- A well-formed request carrying a direct file URL. -/
def exReq : ConvertRequest :=
  { hasJson := true, fileUrl := some "https://example.com/mail.eml",
    googleDriveFileId := none }

/-- A downloaded payload that is an HTML login page. -/
def exHtmlPayload : List Nat := asciiBytes "<html><body>Login</body></html>"

/-- A downloaded payload that is a plain `.eml` file. -/
def exEmlPayload : List Nat := asciiBytes "From: a@b\u000A\u000Ahi"

/-- The trace of the run of `process_email_to_pdf` on `exDataNoAtt` with
temp dir `/tmp/t` and output `/tmp/out.pdf`. -/
def exTraceNoAtt : ProcTrace :=
  { result := { success := true, output_path := "/tmp/out.pdf",
                email_subject := "Hello", email_from := "alice@example.com",
                attachment_count := 0, total_pages := 1 },
    pdf_list := ["/tmp/t" ++ "/00_email.pdf"],
    written := [],
    merged := ["/tmp/t" ++ "/00_email.pdf"] }

/-! # Theorems

## Helper lemmas on the escaping chain -/

theorem pyReplace_append (c : Char) (r a b : List Char) :
    pyReplace c r (a ++ b) = pyReplace c r a ++ pyReplace c r b := by
  induction a with
  | nil => rfl
  | cons d t ih => simp [pyReplace, ih]

theorem py3_append (a b : List Char) : py3 (a ++ b) = py3 a ++ py3 b := by
  simp [py3, pyReplace_append]

theorem py3_single (c : Char) :
    py3 [c] = (if c = '&' then "&amp;".toList else if c = '<' then "&lt;".toList
      else if c = '>' then "&gt;".toList else [c]) := by
  by_cases h1 : c = '&'
  · subst h1; rfl
  · by_cases h2 : c = '<'
    · subst h2; rfl
    · by_cases h3 : c = '>'
      · subst h3; rfl
      · simp [py3, pyReplace, h1, h2, h3]

/-- The sequential three-replace chain (`&` first) equals the one-pass
three-character substitution: replacing `&` first means the ampersands
introduced by `&lt;`/`&gt;` are never re-escaped. -/
theorem py3_eq_escapeSpecL (l : List Char) : py3 l = escapeSpecL l := by
  induction l with
  | nil => rfl
  | cons c t ih =>
    have hsplit : c :: t = [c] ++ t := rfl
    rw [hsplit, py3_append, py3_single, ih]
    simp [escapeSpecL]

theorem stripTags_nil : stripTags [] = [] := by
  simp [stripTags]

/-- The lazy class `[^<]+?` may start with `>`: `re.sub` deletes `<>>`
entirely, and so does the model. -/
theorem stripTags_gt_first : stripTags ['<', '>', '>'] = [] := by
  simp [stripTags, tagMatch, tagEnd]

/-- Likewise `<>a>` is a single match and is deleted entirely. -/
theorem stripTags_gt_then_char : stripTags ['<', '>', 'a', '>'] = [] := by
  simp [stripTags, tagMatch, tagEnd]

/-! ## Magic-number detection lemmas (C3) -/

theorem magic_take10 (l : List Nat) :
    magicBytes.isPrefixOf (l.take 10) = magicBytes.isPrefixOf l := by
  match l with
  | [] => rfl
  | [_] => rfl
  | [_, _] => rfl
  | [_, _, _] => rfl
  | a :: b :: c :: d :: t => simp [magicBytes, List.isPrefixOf, List.take]

theorem magic_prefix_iff (l : List Nat) :
    magicBytes.isPrefixOf l = true ↔ l.take 4 = magicBytes := by
  match l with
  | [] => simp [magicBytes, List.isPrefixOf]
  | [a] => simp [magicBytes, List.isPrefixOf]
  | [a, b] => simp [magicBytes, List.isPrefixOf]
  | [a, b, c] => simp [magicBytes, List.isPrefixOf]
  | a :: b :: c :: d :: t =>
    have ht : (a :: b :: c :: d :: t).take 4 = [a, b, c, d] := rfl
    rw [ht]
    simp only [magicBytes, List.isPrefixOf, Bool.and_eq_true, beq_iff_eq,
      List.cons.injEq, and_true]
    constructor
    · rintro ⟨h1, h2, h3, h4⟩
      exact ⟨h1.symm, h2.symm, h3.symm, h4.symm⟩
    · rintro ⟨h1, h2, h3, h4⟩
      exact ⟨h1.symm, h2.symm, h3.symm, h4.symm⟩

/-- C3: an extensionless input is dispatched to the `.msg` parser exactly
when its first four bytes are the compound-document magic number
`D0 CF 11 E0`, and to the `.eml` parser in every other case. -/
theorem c3_extensionless_detection (fileBytes : List Nat) :
    (parser_choice "" fileBytes = Except.ok ParsePathKind.msgPath ↔
      fileBytes.take 4 = magicBytes) ∧
    (parser_choice "" fileBytes = Except.ok ParsePathKind.emlPath ↔
      fileBytes.take 4 ≠ magicBytes) := by
  have hiff : (magicBytes.isPrefixOf (fileBytes.take 10) = true) ↔
      fileBytes.take 4 = magicBytes := by
    rw [magic_take10]; exact magic_prefix_iff fileBytes
  by_cases h : magicBytes.isPrefixOf (fileBytes.take 10) = true
  · have hp : parser_choice "" fileBytes = Except.ok ParsePathKind.msgPath := by
      simp [parser_choice, detect_extension, h]
    rw [hp]
    constructor
    · exact ⟨fun _ => hiff.mp h, fun _ => rfl⟩
    · constructor
      · intro hx; exact absurd (Except.ok.inj hx) (by decide)
      · intro hx; exact absurd (hiff.mp h) hx
  · have hb : magicBytes.isPrefixOf (fileBytes.take 10) = false := by
      cases hb2 : magicBytes.isPrefixOf (fileBytes.take 10) with
      | true => exact absurd hb2 h
      | false => rfl
    have hp : parser_choice "" fileBytes = Except.ok ParsePathKind.emlPath := by
      simp [parser_choice, detect_extension, hb]
    rw [hp]
    constructor
    · constructor
      · intro hx; exact absurd (Except.ok.inj hx) (by decide)
      · intro hx; exact absurd (hiff.mpr hx) h
    · exact ⟨fun _ hc => h (hiff.mpr hc), fun _ => rfl⟩

/-- Witness for C3 at two concrete byte strings. -/
theorem c3_witness :
    (parser_choice "" ([0xD0, 0xCF, 0x11, 0xE0, 0, 0] : List Nat) =
      Except.ok ParsePathKind.msgPath) ∧
    (parser_choice "" ([0x46, 0x72] : List Nat) =
      Except.ok ParsePathKind.emlPath) :=
  ⟨((c3_extensionless_detection _).1).mpr (by decide),
   ((c3_extensionless_detection _).2).mpr (by decide)⟩

/-! ## C1: a raising attachment conversion -/

/-- C1 (code divergence, evaluated): converting the one-attachment email
`exDataOneAtt` where the attachment conversion raises `Exception("boom")`
does write the one-page error placeholder carrying the first 200 characters
of the message, and the job still reports overall success — but
`convert_attachment_to_pdf` returns `False` from its `except` branch, so the
caller drops the placeholder: `pdf_list` (the list handed to the merge)
contains only the email page, contradicting the claim that the placeholder
is reported as converted and included in the merge. -/
theorem c1_placeholder_written_but_dropped :
    convert_attachment_to_pdf "/tmp/att/a.txt" "abc" (AttOutcome.raises "boom") =
      (false, PdfFile.errorPlaceholder (error_placeholder_html "a.txt" "boom")) ∧
    (process_email_to_pdf ".eml" [] (Except.ok exDataOneAtt) (Except.error "unused")
        (Except.ok ()) "/tmp/t" "/tmp/out.pdf" (fun _ => "abc")
        (fun _ => AttOutcome.raises "boom") (fun _ => true)).toOption.map
        (fun t => (t.result.success, t.pdf_list, t.written)) =
      some (true, ["/tmp/t/00_email.pdf"],
        [("/tmp/t/01_a.txt.pdf",
          PdfFile.errorPlaceholder (error_placeholder_html "a.txt" "boom"))]) := by
  constructor
  · rfl
  · rfl

/-! ## C6: body derivation and escaping -/

/-- C6 (amended): the body text placed in the rendered HTML is the source
body — the plain-text body, or, when that is empty, the HTML body with every
match of `<[^<]+?>` deleted — escaped by exactly the three replacements
`&`/`<`/`>` (ampersand first, so nothing is double-escaped), except that
when the derived body is empty the literal `'No content'` is placed
instead. -/
theorem c6_body_escaping (e : EmailData) :
    gmailBodyContent e =
      String.mk (escapeSpecL
        (if claim_body_source e = "" then "No content" else claim_body_source e).toList) := by
  have hb :
      (if (if e.body_text = "" ∧ e.body_html ≠ "" then
              String.mk (stripTags e.body_html.toList) else e.body_text) = ""
       then "No content"
       else (if e.body_text = "" ∧ e.body_html ≠ "" then
              String.mk (stripTags e.body_html.toList) else e.body_text)) =
      (if claim_body_source e = "" then "No content" else claim_body_source e) := by
    unfold claim_body_source
    by_cases h1 : e.body_text = ""
    · by_cases h2 : e.body_html = ""
      · simp [h1, h2, stripTags_nil]
      · simp [h1, h2]
    · simp [h1]
  simp only [gmailBodyContent, escape_body]
  rw [hb, py3_eq_escapeSpecL]

/-- Counterexample for C6 as stated: with both bodies empty the rendered body
is the literal `'No content'`, not the escaped (empty) source body. -/
theorem c6_counterexample :
    gmailBodyContent exDataEmptyBodies ≠
      String.mk (escapeSpecL (claim_body_source exDataEmptyBodies).toList) := by
  have h1 : gmailBodyContent exDataEmptyBodies = "No content" := rfl
  have h2 : claim_body_source exDataEmptyBodies = "" := by
    simp [claim_body_source, exDataEmptyBodies, stripTags_nil]
  rw [h1, h2]
  decide

/-! ## C5: the multipart walk -/

theorem walk_step_attachments (acc : EmailData) (p : EmlPart) :
    (walk_step acc p).attachments =
      acc.attachments ++
        (if isAttachmentPart p then
          (match p.filename with
           | some fn =>
             if fn ≠ "" ∧ p.extract_ok then
               [(⟨fn, p.path, p.content_type, p.size⟩ : Attachment)]
             else []
           | none => [])
         else []) := by
  unfold walk_step
  by_cases h1 : isAttachmentPart p = true
  · cases hf : p.filename with
    | none => simp [h1, hf]
    | some fn =>
      by_cases h2 : fn ≠ "" ∧ p.extract_ok
      · simp [h1, hf, h2]
      · simp [h1, hf, h2]
  · by_cases h3 : p.content_type = "text/plain" ∧ acc.body_text = ""
    · simp [h1, h3]
    · by_cases h4 : p.content_type = "text/html" ∧ acc.body_html = ""
      · simp [h1, h3, h4]
      · simp [h1, h3, h4]

theorem foldl_attachments (parts : List EmlPart) : ∀ acc : EmailData,
    (parts.foldl walk_step acc).attachments =
      acc.attachments ++ extractedAttachments parts := by
  induction parts with
  | nil => intro acc; simp [extractedAttachments]
  | cons p t ih =>
    intro acc
    rw [List.foldl_cons, ih, walk_step_attachments, List.append_assoc]
    unfold extractedAttachments
    rw [List.filterMap_cons]
    by_cases h1 : isAttachmentPart p = true
    · cases hf : p.filename with
      | none => simp [h1, hf, extractedAttachments]
      | some fn =>
        by_cases h2 : fn ≠ "" ∧ p.extract_ok
        · simp [h1, hf, h2, extractedAttachments]
        · simp [h1, hf, h2, extractedAttachments]
    · simp [h1, extractedAttachments]

theorem walk_step_body_text (acc : EmailData) (p : EmlPart) :
    (walk_step acc p).body_text =
      if isAttachmentPart p = false ∧ p.content_type = "text/plain" ∧ acc.body_text = ""
      then p.content.getD "" else acc.body_text := by
  unfold walk_step
  by_cases h1 : isAttachmentPart p = true
  · cases hf : p.filename with
    | none => simp [h1, hf]
    | some fn =>
      by_cases h2 : fn ≠ "" ∧ p.extract_ok
      · simp [h1, hf, h2]
      · simp [h1, hf, h2]
  · have h1f : isAttachmentPart p = false := by
      cases hb : isAttachmentPart p with
      | true => exact absurd hb h1
      | false => rfl
    by_cases h3 : p.content_type = "text/plain" ∧ acc.body_text = ""
    · rw [if_neg h1, if_pos h3, if_pos ⟨h1f, h3.1, h3.2⟩]
      simp [h3.2]
    · have hno : ¬(isAttachmentPart p = false ∧ p.content_type = "text/plain" ∧
          acc.body_text = "") := fun hc => h3 ⟨hc.2.1, hc.2.2⟩
      by_cases h4 : p.content_type = "text/html" ∧ acc.body_html = ""
      · simp [h1, h3, h4, hno]
      · simp [h1, h3, h4, hno]

theorem walk_step_body_html (acc : EmailData) (p : EmlPart) :
    (walk_step acc p).body_html =
      if isAttachmentPart p = false ∧ p.content_type = "text/html" ∧ acc.body_html = ""
      then p.content.getD "" else acc.body_html := by
  unfold walk_step
  by_cases h1 : isAttachmentPart p = true
  · cases hf : p.filename with
    | none => simp [h1, hf]
    | some fn =>
      by_cases h2 : fn ≠ "" ∧ p.extract_ok
      · simp [h1, hf, h2]
      · simp [h1, hf, h2]
  · have h1f : isAttachmentPart p = false := by
      cases hb : isAttachmentPart p with
      | true => exact absurd hb h1
      | false => rfl
    by_cases h3 : p.content_type = "text/plain" ∧ acc.body_text = ""
    · have hno : ¬(isAttachmentPart p = false ∧ p.content_type = "text/html" ∧
          acc.body_html = "") := fun hc => by
        rw [h3.1] at hc; exact absurd hc.2.1 (by decide)
      simp [h1, h3, hno]
    · by_cases h4 : p.content_type = "text/html" ∧ acc.body_html = ""
      · rw [if_neg h1, if_neg h3, if_pos h4, if_pos ⟨h1f, h4.1, h4.2⟩]
        simp [h4.2]
      · have hno : ¬(isAttachmentPart p = false ∧ p.content_type = "text/html" ∧
            acc.body_html = "") := fun hc => h4 ⟨hc.2.1, hc.2.2⟩
        simp [h1, h3, h4, hno]

theorem foldl_body_text_preserved (parts : List EmlPart) : ∀ acc : EmailData,
    acc.body_text ≠ "" → (parts.foldl walk_step acc).body_text = acc.body_text := by
  induction parts with
  | nil => intro acc _; rfl
  | cons p t ih =>
    intro acc h
    rw [List.foldl_cons]
    have hb : (walk_step acc p).body_text = acc.body_text := by
      rw [walk_step_body_text, if_neg (fun hc => h hc.2.2)]
    rw [ih _ (by rw [hb]; exact h), hb]

theorem foldl_body_html_preserved (parts : List EmlPart) : ∀ acc : EmailData,
    acc.body_html ≠ "" → (parts.foldl walk_step acc).body_html = acc.body_html := by
  induction parts with
  | nil => intro acc _; rfl
  | cons p t ih =>
    intro acc h
    rw [List.foldl_cons]
    have hb : (walk_step acc p).body_html = acc.body_html := by
      rw [walk_step_body_html, if_neg (fun hc => h hc.2.2)]
    rw [ih _ (by rw [hb]; exact h), hb]

theorem foldl_body_text (parts : List EmlPart) : ∀ acc : EmailData,
    acc.body_text = "" →
    (parts.foldl walk_step acc).body_text = firstNonEmptyContent "text/plain" parts := by
  induction parts with
  | nil => intro acc h; simpa [firstNonEmptyContent] using h
  | cons p t ih =>
    intro acc h
    rw [List.foldl_cons]
    by_cases hc : isAttachmentPart p = false ∧ p.content_type = "text/plain" ∧
        p.content.getD "" ≠ ""
    · have hb : (walk_step acc p).body_text = p.content.getD "" := by
        rw [walk_step_body_text, if_pos ⟨hc.1, hc.2.1, h⟩]
      rw [foldl_body_text_preserved t _ (by rw [hb]; exact hc.2.2), hb]
      simp only [firstNonEmptyContent]
      rw [if_pos hc]
    · have hb : (walk_step acc p).body_text = "" := by
        rw [walk_step_body_text]
        split
        · rename_i hcond
          by_contra hne
          exact hc ⟨hcond.1, hcond.2.1, hne⟩
        · exact h
      rw [ih _ hb]
      simp only [firstNonEmptyContent]
      rw [if_neg hc]

theorem foldl_body_html (parts : List EmlPart) : ∀ acc : EmailData,
    acc.body_html = "" →
    (parts.foldl walk_step acc).body_html = firstNonEmptyContent "text/html" parts := by
  induction parts with
  | nil => intro acc h; simpa [firstNonEmptyContent] using h
  | cons p t ih =>
    intro acc h
    rw [List.foldl_cons]
    by_cases hc : isAttachmentPart p = false ∧ p.content_type = "text/html" ∧
        p.content.getD "" ≠ ""
    · have hb : (walk_step acc p).body_html = p.content.getD "" := by
        rw [walk_step_body_html, if_pos ⟨hc.1, hc.2.1, h⟩]
      rw [foldl_body_html_preserved t _ (by rw [hb]; exact hc.2.2), hb]
      simp only [firstNonEmptyContent]
      rw [if_pos hc]
    · have hb : (walk_step acc p).body_html = "" := by
        rw [walk_step_body_html]
        split
        · rename_i hcond
          by_contra hne
          exact hc ⟨hcond.1, hcond.2.1, hne⟩
        · exact h
      rw [ih _ hb]
      simp only [firstNonEmptyContent]
      rw [if_neg hc]

/-- C5 (amended): in a multipart message a part is classified as an
attachment exactly when its disposition contains the marker or it carries a
truthy filename (those with a truthy filename and a successful payload write
become the attachment records, in walk order), and the captured plain-text
body is the first non-empty successfully-extracted `text/plain` content among
the non-attachment parts — a later `text/plain` part is consulted only while
every earlier one yielded empty content; likewise for the HTML body. -/
theorem c5_multipart_walk (m : EmlMessage) (hm : m.multipart = true) :
    (parse_eml_file m).body_text = firstNonEmptyContent "text/plain" m.parts ∧
    (parse_eml_file m).body_html = firstNonEmptyContent "text/html" m.parts ∧
    (parse_eml_file m).attachments = extractedAttachments m.parts := by
  unfold parse_eml_file
  rw [if_pos hm]
  refine ⟨foldl_body_text m.parts _ rfl, foldl_body_html m.parts _ rfl, ?_⟩
  rw [foldl_attachments]
  simp

/-- Witness for C5 at the concrete two-part message. -/
theorem c5_witness :
    (parse_eml_file exMsgTwoPlain).body_text =
      firstNonEmptyContent "text/plain" exMsgTwoPlain.parts ∧
    (parse_eml_file exMsgTwoPlain).body_html =
      firstNonEmptyContent "text/html" exMsgTwoPlain.parts ∧
    (parse_eml_file exMsgTwoPlain).attachments =
      extractedAttachments exMsgTwoPlain.parts :=
  c5_multipart_walk exMsgTwoPlain rfl

/-- Counterexample for C5 as stated: the first `text/plain` part of
`exMsgTwoPlain` has empty content, yet the captured body is `"second"`,
i.e. a later `text/plain` part became the plain-text body instead of being
ignored. -/
theorem c5_counterexample :
    (parse_eml_file exMsgTwoPlain).body_text = "second" ∧
    firstPartContent "text/plain" exMsgTwoPlain.parts = "" := by
  constructor
  · rfl
  · rfl

/-! ## C7: zero attachments -/

/-- C7: for a parsed message with no attachments (and the email page present
on disk for the merge), the list handed to the merger and the merged sources
are exactly the email page, and the result reports `total_pages = 1` and
`attachment_count = 0`. -/
theorem c7_zero_attachments (fileBytes : List Nat)
    (msgParse : Except String EmailData) (temp_dir out_path : String)
    (attContent : Attachment → String) (attOutcome : Attachment → AttOutcome)
    (on_disk : String → Bool) (d : EmailData)
    (hatt : d.attachments = [])
    (hdisk : on_disk (temp_dir ++ "/00_email.pdf") = true) :
    (process_email_to_pdf ".eml" fileBytes (Except.ok d) msgParse (Except.ok ())
        temp_dir out_path attContent attOutcome on_disk).toOption.map
      (fun t => (t.pdf_list, t.merged, t.result.total_pages, t.result.attachment_count)) =
      some ([temp_dir ++ "/00_email.pdf"], [temp_dir ++ "/00_email.pdf"], 1, 0) := by
  have hpc : parser_choice ".eml" fileBytes = Except.ok ParsePathKind.emlPath := rfl
  have hb : build_pdf_list temp_dir attContent attOutcome d =
      ([temp_dir ++ "/00_email.pdf"], []) := by
    unfold build_pdf_list
    rw [hatt]
    rfl
  unfold process_email_to_pdf
  rw [hpc]
  simp only [hb, merge_pdfs]
  simp [List.filter, hdisk, hatt, Except.toOption]

/-- Witness for C7 at a concrete run. -/
theorem c7_witness :
    (process_email_to_pdf ".eml" [] (Except.ok exDataNoAtt) (Except.error "unused")
        (Except.ok ()) "/tmp/t" "/tmp/out.pdf" (fun _ => "")
        (fun _ => AttOutcome.normal) (fun _ => true)).toOption.map
      (fun t => (t.pdf_list, t.merged, t.result.total_pages, t.result.attachment_count)) =
      some (["/tmp/t" ++ "/00_email.pdf"], ["/tmp/t" ++ "/00_email.pdf"], 1, 0) :=
  c7_zero_attachments [] (Except.error "unused") "/tmp/t" "/tmp/out.pdf"
    (fun _ => "") (fun _ => AttOutcome.normal) (fun _ => true) exDataNoAtt rfl rfl

/-! ## C10: the success flag is always True -/

theorem process_ok_success (ext0 : String) (fileBytes : List Nat)
    (emlParse msgParse : Except String EmailData) (emailRender : Except String Unit)
    (temp_dir out_path : String) (attContent : Attachment → String)
    (attOutcome : Attachment → AttOutcome) (on_disk : String → Bool)
    (tr : ProcTrace)
    (h : process_email_to_pdf ext0 fileBytes emlParse msgParse emailRender
      temp_dir out_path attContent attOutcome on_disk = Except.ok tr) :
    tr.result.success = true := by
  unfold process_email_to_pdf at h
  split at h
  · exact Except.noConfusion h
  · split at h
    · exact Except.noConfusion h
    · split at h
      · exact Except.noConfusion h
      · cases h
        rfl

/-- C10: `process_email_to_pdf` either raises or returns a result whose
`success` flag is `True`; consequently the `if not result['success']`
branches of both HTTP handlers (which would answer 500 with the result
body) are unreachable. -/
theorem c10_success_unreachable_500 (ext0 : String) (fileBytes : List Nat)
    (emlParse msgParse : Except String EmailData) (emailRender : Except String Unit)
    (temp_dir out_path : String) (attContent : Attachment → String)
    (attOutcome : Attachment → AttOutcome) (on_disk : String → Bool) :
    (∀ tr, process_email_to_pdf ext0 fileBytes emlParse msgParse emailRender
        temp_dir out_path attContent attOutcome on_disk = Except.ok tr →
        tr.result.success = true) ∧
    (∀ req status payload,
      is_result_error500 (convert_handler req status payload emlParse msgParse
        emailRender temp_dir out_path attContent attOutcome on_disk).1 = false) ∧
    (∀ req status payload,
      is_result_error500 (download_handler req status payload emlParse msgParse
        emailRender temp_dir out_path attContent attOutcome on_disk).1 = false) := by
  refine ⟨fun tr h => process_ok_success _ _ _ _ _ _ _ _ _ _ tr h, ?_, ?_⟩
  · intro req status payload
    unfold convert_handler
    split
    · rfl
    · split
      · rfl
      · split
        · rfl
        · split
          · rfl
          · split
            · rfl
            · rename_i t heq
              rw [process_ok_success _ _ _ _ _ _ _ _ _ _ t heq]
              rfl
  · intro req status payload
    unfold download_handler
    split
    · rfl
    · split
      · rfl
      · split
        · rfl
        · split
          · rfl
          · rename_i t heq
            rw [process_ok_success _ _ _ _ _ _ _ _ _ _ t heq]
            rfl

/-- Witness for C10 at a concrete run and request. -/
theorem c10_witness :
    exTraceNoAtt.result.success = true ∧
    is_result_error500 (convert_handler exReq 200 exEmlPayload
      (Except.ok exDataNoAtt) (Except.error "unused") (Except.ok ()) "/tmp/t"
      "/tmp/out.pdf" (fun _ => "") (fun _ => AttOutcome.normal) (fun _ => true)).1 = false ∧
    is_result_error500 (download_handler exReq 200 exEmlPayload
      (Except.ok exDataNoAtt) (Except.error "unused") (Except.ok ()) "/tmp/t"
      "/tmp/out.pdf" (fun _ => "") (fun _ => AttOutcome.normal) (fun _ => true)).1 = false :=
  ⟨(c10_success_unreachable_500 ".eml" [] (Except.ok exDataNoAtt) (Except.error "unused")
      (Except.ok ()) "/tmp/t" "/tmp/out.pdf" (fun _ => "") (fun _ => AttOutcome.normal)
      (fun _ => true)).1 exTraceNoAtt rfl,
   (c10_success_unreachable_500 ".eml" [] (Except.ok exDataNoAtt) (Except.error "unused")
      (Except.ok ()) "/tmp/t" "/tmp/out.pdf" (fun _ => "") (fun _ => AttOutcome.normal)
      (fun _ => true)).2.1 exReq 200 exEmlPayload,
   (c10_success_unreachable_500 ".eml" [] (Except.ok exDataNoAtt) (Except.error "unused")
      (Except.ok ()) "/tmp/t" "/tmp/out.pdf" (fun _ => "") (fun _ => AttOutcome.normal)
      (fun _ => true)).2.2 exReq 200 exEmlPayload⟩

/-! ## C2: the HTML-payload sniff -/

/-- C2 (amended): only `POST /convert` performs the HTML byte-prefix sniff —
an HTML-prefixed payload makes it answer the 400 error envelope without
invoking the conversion pipeline — while `POST /convert/download` has no such
check and invokes the pipeline even on an HTML-prefixed payload. -/
theorem c2_sniff_only_on_convert (req : ConvertRequest) (status : Nat)
    (payload : List Nat) (emlParse msgParse : Except String EmailData)
    (emailRender : Except String Unit) (temp_dir out_path : String)
    (attContent : Attachment → String) (attOutcome : Attachment → AttOutcome)
    (on_disk : String → Bool)
    (hjson : req.hasJson = true)
    (hurl : truthyOpt req.fileUrl = true ∨ truthyOpt req.googleDriveFileId = true)
    (hstatus : status = 200)
    (hsniff : html_sniff payload = true) :
    convert_handler req status payload emlParse msgParse emailRender temp_dir
      out_path attContent attOutcome on_disk =
      (HandlerResponse.errorJson htmlRejectMsg 400, false) ∧
    (download_handler req status payload emlParse msgParse emailRender temp_dir
      out_path attContent attOutcome on_disk).2 = true := by
  have hj : ¬¬(req.hasJson = true) := fun hx => hx hjson
  have hu : ¬(¬(truthyOpt req.fileUrl = true) ∧ ¬(truthyOpt req.googleDriveFileId = true)) := by
    rcases hurl with h | h
    · exact fun hx => hx.1 h
    · exact fun hx => hx.2 h
  have hs : ¬(status ≠ 200) := fun hx => hx hstatus
  constructor
  · unfold convert_handler
    rw [if_neg hj, if_neg hu, if_neg hs, if_pos hsniff]
  · unfold download_handler
    rw [if_neg hj, if_neg hu, if_neg hs]
    cases hp : process_email_to_pdf "" payload emlParse msgParse emailRender
        temp_dir out_path attContent attOutcome on_disk with
    | error e => rfl
    | ok t =>
      split
      · rfl
      · split
        · rfl
        · rfl

/-- Witness for C2 at a concrete HTML payload. -/
theorem c2_witness :
    convert_handler exReq 200 exHtmlPayload (Except.ok exDataNoAtt)
      (Except.error "unused") (Except.ok ()) "/tmp/t" "/tmp/out.pdf"
      (fun _ => "") (fun _ => AttOutcome.normal) (fun _ => true) =
      (HandlerResponse.errorJson htmlRejectMsg 400, false) ∧
    (download_handler exReq 200 exHtmlPayload (Except.ok exDataNoAtt)
      (Except.error "unused") (Except.ok ()) "/tmp/t" "/tmp/out.pdf"
      (fun _ => "") (fun _ => AttOutcome.normal) (fun _ => true)).2 = true :=
  c2_sniff_only_on_convert exReq 200 exHtmlPayload (Except.ok exDataNoAtt)
    (Except.error "unused") (Except.ok ()) "/tmp/t" "/tmp/out.pdf"
    (fun _ => "") (fun _ => AttOutcome.normal) (fun _ => true)
    rfl (Or.inl rfl) rfl (by decide)

/-- Counterexample for C2 as stated: `/convert/download` receives a payload
that begins with `<html` (the sniff recognises it as HTML), yet it still
invokes the conversion pipeline instead of rejecting with the 400 error
envelope. -/
theorem c2_counterexample :
    html_sniff exHtmlPayload = true ∧
    (download_handler exReq 200 exHtmlPayload (Except.ok exDataNoAtt)
      (Except.error "unused") (Except.ok ()) "/tmp/t" "/tmp/out.pdf"
      (fun _ => "") (fun _ => AttOutcome.normal) (fun _ => true)) =
      (HandlerResponse.pdfDownload "email_printout.pdf", true) := by
  constructor
  · decide
  · rfl

/-! ## C4: merge order -/

theorem map_chip_eq (l1 l2 : List Attachment)
    (h : l1.map (fun a => (a.filename, a.size)) = l2.map (fun a => (a.filename, a.size))) :
    l1.map attachment_chip = l2.map attachment_chip := by
  have h1 : ∀ l : List Attachment, l.map attachment_chip =
      (l.map (fun a => (a.filename, a.size))).map (fun p => chip_of p.1 p.2) := by
    intro l
    rw [List.map_map]
    rfl
  rw [h1, h1, h]

theorem attachments_html_congr (l1 l2 : List Attachment)
    (h : l1.map (fun a => (a.filename, a.size)) = l2.map (fun a => (a.filename, a.size))) :
    attachments_html l1 = attachments_html l2 := by
  have hlen : l1.length = l2.length := by
    have := congrArg List.length h
    simpa using this
  have hie : l1.isEmpty = l2.isEmpty := by
    cases l1 <;> cases l2 <;> simp_all
  unfold attachments_html
  rw [map_chip_eq l1 l2 h, hie]

/-- C8: `create_gmail_html` is a deterministic pure function of the headers,
bodies, and attachment filenames and sizes: two records agreeing on those
fields render to the same HTML string, whatever the attachment temp paths
(and declared content types) are. -/
theorem c8_renderer_pure (e1 e2 : EmailData)
    (hf : e1.fromAddr = e2.fromAddr) (ht : e1.toAddr = e2.toAddr)
    (hc : e1.cc = e2.cc) (hs : e1.subject = e2.subject) (hd : e1.date = e2.date)
    (hbt : e1.body_text = e2.body_text) (hbh : e1.body_html = e2.body_html)
    (ha : e1.attachments.map (fun a => (a.filename, a.size)) =
          e2.attachments.map (fun a => (a.filename, a.size))) :
    create_gmail_html e1 = create_gmail_html e2 := by
  have hbody : gmailBodyContent e1 = gmailBodyContent e2 := by
    unfold gmailBodyContent
    rw [hbt, hbh]
  have hatts : attachments_html e1.attachments = attachments_html e2.attachments :=
    attachments_html_congr _ _ ha
  unfold create_gmail_html
  rw [hs, hf, ht, hc, hd, hbody, hatts]

/-- Witness for C8: two records differing only in the attachment temp path
render identically. -/
theorem c8_witness : create_gmail_html exDataPathA = create_gmail_html exDataPathB :=
  c8_renderer_pure exDataPathA exDataPathB rfl rfl rfl rfl rfl rfl rfl rfl

/-! ## C9: headers and filenames are interpolated verbatim -/

theorem occursIn_self (n : String) : occursIn n n :=
  ⟨[], [], by simp⟩

theorem occursIn_left {n s : String} (t : String) (h : occursIn n s) :
    occursIn n (s ++ t) := by
  obtain ⟨p, q, hp⟩ := h
  exact ⟨p, q ++ t.data, by rw [String.data_append, hp]; simp [List.append_assoc]⟩

theorem occursIn_right (s : String) {n t : String} (h : occursIn n t) :
    occursIn n (s ++ t) := by
  obtain ⟨p, q, hp⟩ := h
  exact ⟨s.data ++ p, q, by rw [String.data_append, hp]; simp [List.append_assoc]⟩

theorem occursIn_head (n t : String) : occursIn n (n ++ t) :=
  occursIn_left t (occursIn_self n)

theorem occursIn_foldl {n : String} : ∀ (l : List String) (acc : String),
    ((∃ s ∈ l, occursIn n s) ∨ occursIn n acc) →
    occursIn n (l.foldl (fun r s => r ++ s) acc) := by
  intro l
  induction l with
  | nil =>
    intro acc h
    rcases h with ⟨s, hs, _⟩ | h
    · exact absurd hs (List.not_mem_nil s)
    · exact h
  | cons a t ih =>
    intro acc h
    rw [List.foldl_cons]
    apply ih
    rcases h with ⟨s, hs, hn⟩ | hacc
    · rcases List.mem_cons.mp hs with rfl | hs'
      · right; exact occursIn_right acc hn
      · left; exact ⟨s, hs', hn⟩
    · right; exact occursIn_left a hacc

theorem occursIn_join {n s : String} {l : List String} (hs : s ∈ l)
    (h : occursIn n s) : occursIn n (String.join l) := by
  show occursIn n (l.foldl (fun r s => r ++ s) "")
  exact occursIn_foldl l "" (Or.inl ⟨s, hs, h⟩)

theorem occursIn_chip (a : Attachment) : occursIn a.filename (attachment_chip a) := by
  unfold attachment_chip chip_of
  exact occursIn_right _ (occursIn_head _ _)

theorem occursIn_attachments_html {a : Attachment} {atts : List Attachment}
    (ha : a ∈ atts) : occursIn a.filename (attachments_html atts) := by
  unfold attachments_html
  have hne : atts.isEmpty = false := by
    cases atts with
    | nil => exact absurd ha (List.not_mem_nil a)
    | cons x xs => rfl
  rw [if_neg (by simp [hne])]
  exact occursIn_right _ (occursIn_right _ (occursIn_left _
    (occursIn_join (List.mem_map_of_mem attachment_chip ha) (occursIn_chip a))))

theorem occursIn_cc_row {cc : String} (h : cc ≠ "") : occursIn cc (cc_row cc) := by
  unfold cc_row
  rw [if_pos h]
  exact occursIn_right _ (occursIn_head _ _)

/-- C9: the subject, from, to and date header values (the Cc value when it is
rendered at all, i.e. when non-empty) and every attachment filename are
spliced verbatim into the rendered HTML — no escaping is applied to them, so
markup inside them lands in the document unchanged (only the body goes
through the three-character escaping of `gmailBodyContent`). -/
theorem c9_headers_unescaped (e : EmailData) :
    occursIn e.subject (create_gmail_html e) ∧
    occursIn e.fromAddr (create_gmail_html e) ∧
    occursIn e.toAddr (create_gmail_html e) ∧
    occursIn e.date (create_gmail_html e) ∧
    (e.cc ≠ "" → occursIn e.cc (create_gmail_html e)) ∧
    ∀ a ∈ e.attachments, occursIn a.filename (create_gmail_html e) := by
  unfold create_gmail_html
  refine ⟨?_, ?_, ?_, ?_, ?_, ?_⟩
  · iterate 3 apply occursIn_right
    exact occursIn_head _ _
  · iterate 5 apply occursIn_right
    exact occursIn_head _ _
  · iterate 7 apply occursIn_right
    exact occursIn_head _ _
  · iterate 11 apply occursIn_right
    exact occursIn_head _ _
  · intro h
    iterate 9 apply occursIn_right
    apply occursIn_left
    exact occursIn_cc_row h
  · intro a ha
    iterate 15 apply occursIn_right
    apply occursIn_left
    exact occursIn_attachments_html ha

/-- Witness for C9: markup in the subject, the non-empty Cc value, and a
markup-bearing filename all occur verbatim in the rendered HTML. -/
theorem c9_witness :
    occursIn "<script>alert(1)</script>" (create_gmail_html exDataMarkup) ∧
    occursIn "cc@example.com" (create_gmail_html exDataMarkup) ∧
    occursIn "<img src=x>.txt" (create_gmail_html exDataMarkup) :=
  ⟨(c9_headers_unescaped exDataMarkup).1,
   (c9_headers_unescaped exDataMarkup).2.2.2.2.1 (by decide),
   (c9_headers_unescaped exDataMarkup).2.2.2.2.2 exMarkupAtt (by decide)⟩

end EmailPdf
